import Mathlib

/-!
Verification of the conversational assessment runner of the
`aiassessmenttool` repository: a shallow embedding of its answer
extraction, conversation windowing, provider proxy handlers, retry
wrapper, cancellation loop, lead-registration honeypot and answer
shuffling, with theorems about each.

Strings are modelled by Lean `String`/`List Char`; the ASCII fragment of
the JavaScript semantics of `trim`, `toUpperCase` and the answer-format
regular expressions is embedded character by character.
-/

/-- ASCII whitespace, as removed by JavaScript `String.prototype.trim`
and matched by the regex class backslash-s. -/
def isJsSpace (c : Char) : Bool :=
  c == ' ' || c == '\t' || c == '\n' || c == '\r' || c == '\x0b' || c == '\x0c'

/-- JavaScript `trim`: drop whitespace from both ends. -/
def trimChars (cs : List Char) : List Char :=
  ((cs.dropWhile isJsSpace).reverse.dropWhile isJsSpace).reverse

/-- JavaScript `trim` on `String`. -/
def jsTrim (s : String) : String :=
  String.mk (trimChars s.toList)

/-- `listStartsWith s p`: the pattern `p` occurs at the head of `s`. -/
def listStartsWith : List Char → List Char → Bool
  | _, [] => true
  | [], _ :: _ => false
  | c :: cs, p :: ps => c == p && listStartsWith cs ps

/-- `hasSubstr s p`: the pattern `p` occurs contiguously somewhere in `s`
(JavaScript `String.prototype.includes`). -/
def hasSubstr : List Char → List Char → Bool
  | [], pat => pat.isEmpty
  | c :: cs, pat => listStartsWith (c :: cs) pat || hasSubstr cs pat

/-- One of the four choice letters A, B, C, D (regex class `[ABCD]` over
the already-uppercased input). -/
def isAnswerLetter (c : Char) : Bool :=
  c == 'A' || c == 'B' || c == 'C' || c == 'D'

/-- Regex class `[A-Z]`. -/
def isAsciiUpperAlpha (c : Char) : Bool :=
  'A' ≤ c && c ≤ 'Z'

/-- Regex class `[a-z]`. -/
def isAsciiLowerAlpha (c : Char) : Bool :=
  'a' ≤ c && c ≤ 'z'

/-- The regex class `[A-Z]` under the `i` flag: either case matches. -/
def isAlphaRegexI (c : Char) : Bool :=
  isAsciiUpperAlpha c || isAsciiLowerAlpha c

/-- Regex word character `[A-Za-z0-9_]`, as used by the boundary
assertion backslash-b. -/
def isWordChar (c : Char) : Bool :=
  isAsciiUpperAlpha c || isAsciiLowerAlpha c || ('0' ≤ c && c ≤ '9') || c == '_'

/-- Skip the maximal run matched by `[:\s]*` in pattern 1 of the
extractor table.  `[ABCD]` is disjoint from `[:\s]`, so the greedy run
with backtracking ends exactly at the first character outside the
class. -/
def skipColonSpace : List Char → List Char
  | [] => []
  | c :: cs => if c == ':' || isJsSpace c then skipColonSpace cs else c :: cs

/-- Skip the maximal run matched by a greedy `\s*` that is followed by a
character outside backslash-s. -/
def skipSpaces : List Char → List Char
  | [] => []
  | c :: cs => if isJsSpace c then skipSpaces cs else c :: cs

/-- A captured `([ABCD])` at the head of the remaining input. -/
def letterAt : List Char → Option Char
  | c :: _ => if isAnswerLetter c then some c else none
  | [] => none

/-- Match one keyword of extractor pattern 1 at this position, then
`[:\s]*([ABCD])`. -/
def keywordCapture (kw : List Char) (cs : List Char) : Option Char :=
  if listStartsWith cs kw then letterAt (skipColonSpace (cs.drop kw.length))
  else none

/-- Extractor pattern `(?:answer|choice|option|select|choose)[:\s]*([ABCD])`
attempted at one position (the alternatives are mutually exclusive at a
given position). -/
def pat1At (cs : List Char) : Option Char :=
  keywordCapture ['A','N','S','W','E','R'] cs <|>
  keywordCapture ['C','H','O','I','C','E'] cs <|>
  keywordCapture ['O','P','T','I','O','N'] cs <|>
  keywordCapture ['S','E','L','E','C','T'] cs <|>
  keywordCapture ['C','H','O','O','S','E'] cs

/-- Leftmost match of pattern 1 (unanchored regex search). -/
def scanPat1 : List Char → Option Char
  | [] => none
  | c :: cs =>
    match pat1At (c :: cs) with
    | some l => some l
    | none => scanPat1 cs

/-- Extractor pattern `^([ABCD])\)`. -/
def pat2 : List Char → Option Char
  | c :: d :: _ => if isAnswerLetter c && d == ')' then some c else none
  | _ => none

/-- Extractor pattern `^([ABCD])\.`. -/
def pat3 : List Char → Option Char
  | c :: d :: _ => if isAnswerLetter c && d == '.' then some c else none
  | _ => none

/-- One of the three dashes of extractor pattern 4. -/
def isDashChar (c : Char) : Bool :=
  c == '-' || c == '–' || c == '—'

/-- Extractor pattern `\b([ABCD])\s*[-–—]\s` attempted at one position;
`prev` is the character before it, for the word boundary. -/
def pat4At (prev : Option Char) : List Char → Option Char
  | c :: rest =>
    if isAnswerLetter c && (match prev with | none => true | some p => !isWordChar p) then
      match skipSpaces rest with
      | d :: e :: _ => if isDashChar d && isJsSpace e then some c else none
      | _ => none
    else none
  | [] => none

/-- Leftmost match of pattern 4. -/
def scanPat4 (prev : Option Char) : List Char → Option Char
  | [] => none
  | c :: cs =>
    match pat4At prev (c :: cs) with
    | some l => some l
    | none => scanPat4 (some c) cs

/-- Extractor pattern `^"?([ABCD])"?$` (anchored, optional quotes). -/
def pat5 : List Char → Option Char
  | [c] => if isAnswerLetter c then some c else none
  | [c, d] =>
    if isAnswerLetter c && d == '"' then some c
    else if c == '"' && isAnswerLetter d then some d
    else none
  | [q1, c, q2] => if q1 == '"' && isAnswerLetter c && q2 == '"' then some c else none
  | _ => none

/-- The verb alternation of extractor pattern 6 followed by a space and
a captured letter. -/
def pat6Verb (cs : List Char) : Option Char :=
  if listStartsWith cs ['C','H','O','O','S','E',' '] then letterAt (cs.drop 7)
  else if listStartsWith cs ['S','E','L','E','C','T',' '] then letterAt (cs.drop 7)
  else if listStartsWith cs ['P','I','C','K',' '] then letterAt (cs.drop 5)
  else none

/-- Extractor pattern `I (?:would )?(?:choose|select|pick) ([ABCD])`
attempted at one position.  No verb starts with "WOULD", so taking the
optional "would " greedily agrees with full backtracking. -/
def pat6At (cs : List Char) : Option Char :=
  if listStartsWith cs ['I',' '] then
    let rest := cs.drop 2
    if listStartsWith rest ['W','O','U','L','D',' '] then pat6Verb (rest.drop 6)
    else pat6Verb rest
  else none

/-- Leftmost match of pattern 6. -/
def scanPat6 : List Char → Option Char
  | [] => none
  | c :: cs =>
    match pat6At (c :: cs) with
    | some l => some l
    | none => scanPat6 cs

/-- Extractor pattern `(?:my|the) answer is ([ABCD])` attempted at one
position. -/
def pat7At (cs : List Char) : Option Char :=
  if listStartsWith cs ['M','Y',' ','A','N','S','W','E','R',' ','I','S',' '] then
    letterAt (cs.drop 13)
  else if listStartsWith cs ['T','H','E',' ','A','N','S','W','E','R',' ','I','S',' '] then
    letterAt (cs.drop 14)
  else none

/-- Leftmost match of pattern 7. -/
def scanPat7 : List Char → Option Char
  | [] => none
  | c :: cs =>
    match pat7At (c :: cs) with
    | some l => some l
    | none => scanPat7 cs

/-- The pattern table of priority 3, tried in the source's array order;
the first pattern with a match anywhere wins. -/
def matchPatterns (cleaned : List Char) : Option Char :=
  scanPat1 cleaned <|> pat2 cleaned <|> pat3 cleaned <|>
  scanPat4 none cleaned <|> pat5 cleaned <|> scanPat6 cleaned <|> scanPat7 cleaned

/-- Priority 4: first standalone letter, pattern `\b([ABCD])\b`,
attempted at one position. -/
def standaloneAt (prev : Option Char) : List Char → Option Char
  | c :: rest =>
    if isAnswerLetter c
        && (match prev with | none => true | some p => !isWordChar p)
        && (match rest with | [] => true | d :: _ => !isWordChar d) then
      some c
    else none
  | [] => none

/-- Leftmost standalone letter. -/
def scanStandalone (prev : Option Char) : List Char → Option Char
  | [] => none
  | c :: cs =>
    match standaloneAt prev (c :: cs) with
    | some l => some l
    | none => scanStandalone (some c) cs

/-- Priority 1 test `^[ABCD]$`. -/
def isSingleLetter : List Char → Bool
  | [c] => isAnswerLetter c
  | _ => false

/-- Priority 2 test `^[ABCD]([^A-Z]|$)` under the `i` flag. -/
def isLetterThenNonAlpha : List Char → Bool
  | [] => false
  | [c] => isAnswerLetter c
  | c :: d :: _ => isAnswerLetter c && !isAlphaRegexI d

/-- The priority cascade of `extractAnswerLetter` over the cleaned
(trimmed, uppercased) character list: exact single letter, letter then
non-letter, the pattern table, first standalone letter. -/
def extractCore (cleaned : List Char) : Option (List Char) :=
  if isSingleLetter cleaned then some cleaned
  else if isLetterThenNonAlpha cleaned then some (cleaned.take 1)
  else
    match matchPatterns cleaned with
    | some c => some [c]
    | none =>
      match scanStandalone none cleaned with
      | some c => some [c]
      | none => none

/-- `extractAnswerLetter` of `src/app/api/proxy/openai/route.ts` and
`src/app/api/proxy/gemini/route.ts` (identical there): robust extraction
of the answer letter from a raw model response. -/
def extractAnswerLetter (response : String) : Option String :=
  (extractCore ((trimChars response.toList).map Char.toUpper)).map fun cs => String.mk cs

theorem extract_test_1 : extractAnswerLetter " b " = some "B" := by decide

theorem extract_test_2 : extractAnswerLetter "The answer is C, but D is close" = some "C" := by
  decide

/-- C3: a raw model output that trims to a single letter A-D (any case)
is mapped by the extractor to that letter, uppercased: priority 1 of the
cascade fires. -/
theorem extract_single_letter (s : String) (c : Char)
    (ht : trimChars s.toList = [c]) (hc : isAnswerLetter c.toUpper = true) :
    extractAnswerLetter s = some (String.mk [c.toUpper]) := by
  unfold extractAnswerLetter
  rw [ht]
  simp [extractCore, isSingleLetter, hc]

/-- C3 witness: the raw output " b " trims to the letter b and is
extracted as "B". -/
theorem extract_single_letter_witness : extractAnswerLetter " b " = some "B" :=
  extract_single_letter " b " 'b' (by decide) (by decide)

/-- C4: a recognized phrase pattern wins over letters appearing later in
prose, and the loose standalone scan only runs when no exact, prefix or
phrase pattern matched.  Stated for the pattern families named by the
spec: "The answer is L", "I choose L", a quoted letter, and a
fallback-only input. -/
theorem extract_phrase_priority (l l' : Char)
    (hl : l = 'A' ∨ l = 'B' ∨ l = 'C' ∨ l = 'D')
    (hl' : l' = 'A' ∨ l' = 'B' ∨ l' = 'C' ∨ l' = 'D') :
    extractAnswerLetter
        (String.mk ("The answer is ".toList ++ [l] ++ ", though ".toList ++ [l'] ++ " is tempting".toList))
      = some (String.mk [l])
  ∧ extractAnswerLetter
        (String.mk ("I choose ".toList ++ [l] ++ " but ".toList ++ [l'] ++ " also works".toList))
      = some (String.mk [l])
  ∧ extractAnswerLetter (String.mk ['"', l, '"']) = some (String.mk [l])
  ∧ extractAnswerLetter "Hmm, maybe b is best" = some "B" := by
  rcases hl with h | h | h | h <;> rcases hl' with h' | h' | h' | h' <;>
    subst h <;> subst h' <;> decide

/-- C4 witness: "The answer is C" style phrases yield the phrase letter
even with another letter in later prose, and loose scanning applies only
as a fallback. -/
theorem extract_phrase_priority_witness :
    extractAnswerLetter
        (String.mk ("The answer is ".toList ++ ['C'] ++ ", though ".toList ++ ['B'] ++ " is tempting".toList))
      = some (String.mk ['C'])
  ∧ extractAnswerLetter
        (String.mk ("I choose ".toList ++ ['C'] ++ " but ".toList ++ ['B'] ++ " also works".toList))
      = some (String.mk ['C'])
  ∧ extractAnswerLetter (String.mk ['"', 'C', '"']) = some (String.mk ['C'])
  ∧ extractAnswerLetter "Hmm, maybe b is best" = some "B" :=
  extract_phrase_priority 'C' 'B' (by decide) (by decide)

/-- Conversation message role exchanged between the client and the
proxy routes ("user" | "assistant"). -/
inductive ChatRole where
  | user
  | assistant
deriving DecidableEq, Repr

/-- A conversation message `{ role, content }`. -/
structure Msg where
  role : ChatRole
  content : String
deriving DecidableEq, Repr

/-- Message role of the array sent onward to OpenAI, which adds the
"system" role. -/
inductive ORole where
  | system
  | user
  | assistant
deriving DecidableEq, Repr

/-- A message of the array sent onward to OpenAI. -/
structure OMsg where
  role : ORole
  content : String
deriving DecidableEq, Repr

/-- `CONTEXT_WINDOW_SIZE` of `src/app/assess/page.tsx`: 20 Q-and-A pairs. -/
def CONTEXT_WINDOW_SIZE : Nat := 20

/-- `MAX_CONTEXT_MESSAGES` of the OpenAI and Gemini proxy routes:
20 pairs = 40 messages. -/
def MAX_CONTEXT_MESSAGES : Nat := 40

/-- Client-side windowing of `src/app/assess/page.tsx` (Anthropic,
Gemini and Grok conversational branches):
`conversationHistory.slice(Math.max(0, length - CONTEXT_WINDOW_SIZE * 2))`.
Truncated `Nat` subtraction is exactly the `Math.max(0, ...)` clamp. -/
def windowedHistory (h : List Msg) : List Msg :=
  h.drop (h.length - CONTEXT_WINDOW_SIZE * 2)

/-- Client-side windowing of the OpenAI conversational branch:
`[systemMsg, ...openaiHistory.slice(1).slice(-(CONTEXT_WINDOW_SIZE * 2))]`.
The history always starts with the system message. -/
def openaiClientWindow (openaiHistory : List OMsg) : List OMsg :=
  match openaiHistory with
  | [] => []
  | sys :: rest => sys :: rest.drop (rest.length - CONTEXT_WINDOW_SIZE * 2)

/-- Proxy-side enforcement of the OpenAI and Gemini conversational
handlers: `messages.slice(-MAX_CONTEXT_MESSAGES)`. -/
def windowMessages (messages : List Msg) : List Msg :=
  messages.drop (messages.length - MAX_CONTEXT_MESSAGES)

/-- `ANSWER_FORMAT_INSTRUCTION` appended to every system prompt by the
proxy routes. -/
def ANSWER_FORMAT_INSTRUCTION : String :=
  "\n\nCRITICAL: When you receive multiple-choice questions (with options A, B, C, D), you MUST respond with ONLY the single letter of your choice (A, B, C, or D). Do not explain, analyze, or add any other text. Just the letter."

/-- `enhancedSystemPrompt` of the proxy handlers: the caller's system
prompt plus the answer-format instruction, or the instruction alone,
trimmed, when no prompt was sent. -/
def enhancedSystemPrompt (systemPrompt : Option String) : String :=
  match systemPrompt with
  | some sp => sp ++ ANSWER_FORMAT_INSTRUCTION
  | none => jsTrim ANSWER_FORMAT_INSTRUCTION

/-- The `openaiMessages` array the OpenAI conversational handler sends
to the vendor: the enhanced system message followed by the windowed
caller messages. -/
def openaiMessagesOf (systemPrompt : Option String) (messages : List Msg) : List OMsg :=
  { role := ORole.system, content := enhancedSystemPrompt systemPrompt } ::
    (windowMessages messages).map fun m =>
      { role := match m.role with
                | ChatRole.user => ORole.user
                | ChatRole.assistant => ORole.assistant,
        content := m.content }

/-- C1: for a conversation log longer than 40 messages the windowed view
is exactly the most recent 40 messages, on the client side and on the
proxy side, and the history sent to the vendor never exceeds
2 x CONTEXT_WINDOW_SIZE entries plus the leading system entry. -/
theorem window_bounds (h m : List Msg) (sys : OMsg) (rest : List OMsg)
    (sp : Option String) (hh : 40 < h.length) :
    windowedHistory h <:+ h
  ∧ (windowedHistory h).length = 40
  ∧ (openaiClientWindow (sys :: rest)).length ≤ 2 * CONTEXT_WINDOW_SIZE + 1
  ∧ (40 < rest.length → (openaiClientWindow (sys :: rest)).length = 41)
  ∧ windowMessages m <:+ m
  ∧ (windowMessages m).length ≤ MAX_CONTEXT_MESSAGES
  ∧ (40 < m.length → (windowMessages m).length = 40)
  ∧ (openaiMessagesOf sp m).length ≤ 2 * CONTEXT_WINDOW_SIZE + 1 := by
  refine ⟨List.drop_suffix _ _, ?_, ?_, ?_, List.drop_suffix _ _, ?_, ?_, ?_⟩
  · rw [windowedHistory, List.length_drop]
    simp only [CONTEXT_WINDOW_SIZE]
    omega
  · simp only [openaiClientWindow, List.length_cons, List.length_drop, CONTEXT_WINDOW_SIZE]
    omega
  · intro hr
    simp only [openaiClientWindow, List.length_cons, List.length_drop, CONTEXT_WINDOW_SIZE]
    omega
  · rw [windowMessages, List.length_drop]
    simp only [MAX_CONTEXT_MESSAGES]
    omega
  · intro hm
    rw [windowMessages, List.length_drop]
    simp only [MAX_CONTEXT_MESSAGES]
    omega
  · simp only [openaiMessagesOf, List.length_cons, List.length_map, windowMessages,
      List.length_drop, CONTEXT_WINDOW_SIZE, MAX_CONTEXT_MESSAGES]
    omega

/-- C1 witness: a 41-message log is windowed to its most recent 40
messages, and the vendor history stays within 41 entries. -/
theorem window_bounds_witness :
    windowedHistory (List.replicate 41 { role := ChatRole.user, content := "q" }) <:+
        List.replicate 41 { role := ChatRole.user, content := "q" }
  ∧ (windowedHistory (List.replicate 41 { role := ChatRole.user, content := "q" })).length = 40
  ∧ (openaiClientWindow ({ role := ORole.system, content := "s" } :: [])).length ≤
      2 * CONTEXT_WINDOW_SIZE + 1
  ∧ (40 < ([] : List OMsg).length →
      (openaiClientWindow ({ role := ORole.system, content := "s" } :: [])).length = 41)
  ∧ windowMessages (List.replicate 41 { role := ChatRole.user, content := "q" }) <:+
      List.replicate 41 { role := ChatRole.user, content := "q" }
  ∧ (windowMessages (List.replicate 41 { role := ChatRole.user, content := "q" })).length ≤
      MAX_CONTEXT_MESSAGES
  ∧ (40 < (List.replicate 41 ({ role := ChatRole.user, content := "q" } : Msg)).length →
      (windowMessages (List.replicate 41 { role := ChatRole.user, content := "q" })).length = 40)
  ∧ (openaiMessagesOf (some "sys") (List.replicate 41 { role := ChatRole.user, content := "q" })).length ≤
      2 * CONTEXT_WINDOW_SIZE + 1 :=
  window_bounds (List.replicate 41 { role := ChatRole.user, content := "q" })
    (List.replicate 41 { role := ChatRole.user, content := "q" })
    { role := ORole.system, content := "s" } [] (some "sys") (by simp)

/-- `MAX_RETRIES` of `src/app/assess/page.tsx`. -/
def MAX_RETRIES : Nat := 3

/-- `INITIAL_RETRY_DELAY_MS` of `src/app/assess/page.tsx`. -/
def INITIAL_RETRY_DELAY_MS : Nat := 2000

/-- The rate-limit test of `callAIWithRetry`: the error message contains
"429", "rate", "Rate", "too many requests" or "Too Many Requests". -/
def isRateLimitError (msg : String) : Bool :=
  hasSubstr msg.toList ['4','2','9'] ||
  hasSubstr msg.toList ['r','a','t','e'] ||
  hasSubstr msg.toList ['R','a','t','e'] ||
  hasSubstr msg.toList ['t','o','o',' ','m','a','n','y',' ','r','e','q','u','e','s','t','s'] ||
  hasSubstr msg.toList ['T','o','o',' ','M','a','n','y',' ','R','e','q','u','e','s','t','s']

/-- `callAIWithRetry` of `src/app/assess/page.tsx`.  The adapter is a
function from the call number (how many calls were made before) to a
result; the second component collects the backoff sleeps, in order.  On
a rate-limit error with fewer than `MAX_RETRIES` retries attempted it
sleeps `INITIAL_RETRY_DELAY_MS * 2 ^ retryCount` and recurses; any other
error, or one that persists, is propagated unchanged. -/
def callAIWithRetry (adapter : Nat → Except String String)
    (callIdx : Nat) (retryCount : Nat) : Except String String × List Nat :=
  match adapter callIdx with
  | Except.ok v => (Except.ok v, [])
  | Except.error msg =>
    if h : isRateLimitError msg = true ∧ retryCount < MAX_RETRIES then
      let retryDelay := INITIAL_RETRY_DELAY_MS * 2 ^ retryCount
      let rest := callAIWithRetry adapter (callIdx + 1) (retryCount + 1)
      (rest.1, retryDelay :: rest.2)
    else
      (Except.error msg, [])
termination_by MAX_RETRIES - retryCount
decreasing_by
  simp only [MAX_RETRIES] at *
  omega

/-- A successful adapter call returns at once, with no sleeps. -/
theorem callAIWithRetry_ok (adapter : Nat → Except String String)
    (ci r : Nat) (v : String) (ha : adapter ci = Except.ok v) :
    callAIWithRetry adapter ci r = (Except.ok v, []) := by
  rw [callAIWithRetry, ha]

/-- A rate-limited failure below the retry cap sleeps
`INITIAL_RETRY_DELAY_MS * 2 ^ retryCount` and retries. -/
theorem callAIWithRetry_retry (adapter : Nat → Except String String)
    (ci r : Nat) (msg : String) (ha : adapter ci = Except.error msg)
    (hrl : isRateLimitError msg = true) (hr : r < MAX_RETRIES) :
    callAIWithRetry adapter ci r =
      ((callAIWithRetry adapter (ci + 1) (r + 1)).1,
        INITIAL_RETRY_DELAY_MS * 2 ^ r :: (callAIWithRetry adapter (ci + 1) (r + 1)).2) := by
  rw [callAIWithRetry, ha]
  dsimp only
  rw [dif_pos ⟨hrl, hr⟩]

/-- Any other failure is propagated unchanged, with no sleep. -/
theorem callAIWithRetry_propagate (adapter : Nat → Except String String)
    (ci r : Nat) (msg : String) (ha : adapter ci = Except.error msg)
    (h : ¬(isRateLimitError msg = true ∧ r < MAX_RETRIES)) :
    callAIWithRetry adapter ci r = (Except.error msg, []) := by
  rw [callAIWithRetry, ha]
  dsimp only
  rw [dif_neg h]

/-- C2: the retry wrapper (i) returns the successful result after
exactly two backoff sleeps of 2000 ms and 4000 ms for an adapter that
rate-limits its first 2 calls and succeeds on the 3rd, (ii) propagates a
non-rate-limit error unchanged with no retry, and (iii) propagates a
persistent rate-limit error unchanged after 3 retries with backoffs
2000, 4000 and 8000 ms. -/
theorem retry_behavior (a b c : Nat → Except String String)
    (m1 m2 m3 mBad v : String)
    (h0 : a 0 = Except.error m1) (h1 : a 1 = Except.error m2) (h2 : a 2 = Except.ok v)
    (hr1 : isRateLimitError m1 = true) (hr2 : isRateLimitError m2 = true)
    (hb : ∀ n, b n = Except.error m3) (hr3 : isRateLimitError m3 = true)
    (hc : c 0 = Except.error mBad) (hbad : isRateLimitError mBad = false) :
    callAIWithRetry a 0 0 = (Except.ok v, [2000, 4000])
  ∧ callAIWithRetry c 0 0 = (Except.error mBad, [])
  ∧ callAIWithRetry b 0 0 = (Except.error m3, [2000, 4000, 8000]) := by
  have s2 : callAIWithRetry a 2 2 = (Except.ok v, []) := callAIWithRetry_ok a 2 2 v h2
  have s1 : callAIWithRetry a 1 1 = (Except.ok v, [4000]) := by
    rw [callAIWithRetry_retry a 1 1 m2 h1 hr2 (by norm_num [MAX_RETRIES]), s2]
    norm_num [INITIAL_RETRY_DELAY_MS]
  have s0 : callAIWithRetry a 0 0 = (Except.ok v, [2000, 4000]) := by
    rw [callAIWithRetry_retry a 0 0 m1 h0 hr1 (by norm_num [MAX_RETRIES]), s1]
    norm_num [INITIAL_RETRY_DELAY_MS]
  have u0 : callAIWithRetry c 0 0 = (Except.error mBad, []) := by
    refine callAIWithRetry_propagate c 0 0 mBad hc ?_
    simp [hbad]
  have t3 : callAIWithRetry b 3 3 = (Except.error m3, []) := by
    refine callAIWithRetry_propagate b 3 3 m3 (hb 3) ?_
    simp [MAX_RETRIES]
  have t2 : callAIWithRetry b 2 2 = (Except.error m3, [8000]) := by
    rw [callAIWithRetry_retry b 2 2 m3 (hb 2) hr3 (by norm_num [MAX_RETRIES]), t3]
    norm_num [INITIAL_RETRY_DELAY_MS]
  have t1 : callAIWithRetry b 1 1 = (Except.error m3, [4000, 8000]) := by
    rw [callAIWithRetry_retry b 1 1 m3 (hb 1) hr3 (by norm_num [MAX_RETRIES]), t2]
    norm_num [INITIAL_RETRY_DELAY_MS]
  have t0 : callAIWithRetry b 0 0 = (Except.error m3, [2000, 4000, 8000]) := by
    rw [callAIWithRetry_retry b 0 0 m3 (hb 0) hr3 (by norm_num [MAX_RETRIES]), t1]
    norm_num [INITIAL_RETRY_DELAY_MS]
  exact ⟨s0, u0, t0⟩

/-- C2 witness: a simulated adapter returning "429 Too Many Requests"
twice then "B" yields ("B", sleeps 2000 and 4000); "401 Unauthorized" is
propagated unchanged with no sleep; a persistent "rate limit exceeded"
is propagated after sleeps 2000, 4000 and 8000. -/
theorem retry_behavior_witness :
    callAIWithRetry
        (fun n => if n < 2 then Except.error "429 Too Many Requests" else Except.ok "B") 0 0
      = (Except.ok "B", [2000, 4000])
  ∧ callAIWithRetry (fun _ => Except.error "401 Unauthorized") 0 0
      = (Except.error "401 Unauthorized", [])
  ∧ callAIWithRetry (fun _ => Except.error "rate limit exceeded") 0 0
      = (Except.error "rate limit exceeded", [2000, 4000, 8000]) :=
  retry_behavior
    (fun n => if n < 2 then Except.error "429 Too Many Requests" else Except.ok "B")
    (fun _ => Except.error "rate limit exceeded")
    (fun _ => Except.error "401 Unauthorized")
    "429 Too Many Requests" "429 Too Many Requests" "rate limit exceeded"
    "401 Unauthorized" "B"
    rfl rfl rfl (by decide) (by decide)
    (fun n => rfl) (by decide) rfl (by decide)

/-- JavaScript `String.prototype.startsWith`, over the character list. -/
def strStartsWith (s p : String) : Bool :=
  listStartsWith s.toList p.toList

/-- The JSON body a vendor's chat endpoint answers with, in the fields
the proxy handlers read: the generated text (`choices[0].message.content`
for OpenAI, `candidates[0].content.parts[0].text` for Gemini,
`content[].text` for Anthropic), the error message and type of a
non-success body, and Gemini's finish reason.  `none` models an absent
field. -/
structure VendorData where
  content : Option String
  errMessage : Option String
  errType : Option String
  finishReason : Option String
deriving DecidableEq, Repr

/-- How the vendor `fetch` behaves: a response within the 30-second
budget, a response that takes longer than 30 seconds (so an armed
`AbortController` fires first), or a thrown network error. -/
inductive FetchBehavior where
  | respond (status : Nat) (data : VendorData)
  | slow (status : Nat) (data : VendorData)
  | netError (msg : String)
deriving DecidableEq, Repr

/-- The JSON answer of a proxy handler, in the fields the client reads. -/
structure ProxyResponse where
  status : Nat
  error : Option String := none
  errType : Option String := none
  response : Option String := none
  contextSize : Option Nat := none
deriving DecidableEq, Repr

/-- The request body of the conversational proxy handlers.  `none`
models an absent optional field; an absent or empty `apiKey` is the
falsy case of the source's presence check. -/
structure ConvBody where
  apiKey : String
  model : Option String
  systemPrompt : Option String
  messages : List Msg
  maxTokens : Option Nat
deriving DecidableEq, Repr

/-- `handleConversationalMode` of `src/app/api/proxy/openai/route.ts`.
Returns whether the vendor fetch was issued, and the handler's
response.  Validation (presence, the literal key prefix "sk-", messages
ending in a user message) happens before any fetch; a `slow` vendor is
cut off by the 30-second AbortController and answered with 504. -/
def handleConversationalModeOpenAI (body : ConvBody) (veh : FetchBehavior) :
    Bool × ProxyResponse :=
  if body.apiKey = "" ∨ body.messages = [] then
    (false, { status := 400, error := some "Missing required fields: apiKey, messages" })
  else if ¬ strStartsWith body.apiKey "sk-" then
    (false, { status := 400,
              error := some "Invalid OpenAI API key format. Key should start with 'sk-'" })
  else
    let windowed := windowMessages body.messages
    if (windowed.getLast?.map Msg.role) ≠ some ChatRole.user then
      (false, { status := 400, error := some "Messages must end with a user message" })
    else
      match veh with
      | FetchBehavior.slow _ _ =>
        (true, { status := 504,
                 error := some "OpenAI API request timed out after 30 seconds" })
      | FetchBehavior.netError m => (true, { status := 500, error := some m })
      | FetchBehavior.respond st data =>
        if st < 200 ∨ 300 ≤ st then
          (true, { status := st,
                   error := some (data.errMessage.getD "OpenAI API error"),
                   errType := some (data.errType.getD "api_error") })
        else
          let rawResponse := data.content.getD ""
          if rawResponse = "" then
            (true, { status := 500, error := some "No response generated by OpenAI",
                     errType := some "empty_response" })
          else
            (true, { status := 200,
                     response := some ((extractAnswerLetter rawResponse).getD rawResponse),
                     contextSize := some (1 + windowed.length) })

/-- `handleConversationalMode` of `src/app/api/proxy/gemini/route.ts`:
same shape with the "AIza" prefix, the safety-block check, and the
system prompt injected as a fake first exchange of two entries. -/
def handleConversationalModeGemini (body : ConvBody) (veh : FetchBehavior) :
    Bool × ProxyResponse :=
  if body.apiKey = "" ∨ body.messages = [] then
    (false, { status := 400, error := some "Missing required fields: apiKey, messages" })
  else if ¬ strStartsWith body.apiKey "AIza" then
    (false, { status := 400,
              error := some "Invalid Gemini API key format. Key should start with 'AIza'" })
  else
    let windowed := windowMessages body.messages
    if (windowed.getLast?.map Msg.role) ≠ some ChatRole.user then
      (false, { status := 400, error := some "Messages must end with a user message" })
    else
      match veh with
      | FetchBehavior.slow _ _ =>
        (true, { status := 504,
                 error := some "Gemini API request timed out after 30 seconds" })
      | FetchBehavior.netError m => (true, { status := 500, error := some m })
      | FetchBehavior.respond st data =>
        if st < 200 ∨ 300 ≤ st then
          (true, { status := st,
                   error := some (data.errMessage.getD "Gemini API error"),
                   errType := some (data.errType.getD "api_error") })
        else if data.finishReason = some "SAFETY" then
          (true, { status := 400,
                   error := some "Response blocked by Gemini safety filters",
                   errType := some "safety_block" })
        else
          let rawResponse := data.content.getD ""
          if rawResponse = "" then
            (true, { status := 500, error := some "No response generated by Gemini",
                     errType := some "empty_response" })
          else
            (true, { status := 200,
                     response := some ((extractAnswerLetter rawResponse).getD rawResponse),
                     contextSize := some (2 + windowed.length) })

/-- The request body of the Anthropic proxy route.  All three required
fields are plain strings; `""` models an absent (falsy) field. -/
structure AnthropicBody where
  apiKey : String
  model : String
  systemPrompt : String
  userMessage : String
  maxTokens : Nat
deriving DecidableEq, Repr

/-- The tail of the Anthropic handler after its fetch resolved. -/
def anthropicComplete (st : Nat) (data : VendorData) : Bool × ProxyResponse :=
  if st < 200 ∨ 300 ≤ st then
    (true, { status := st,
             error := some (data.errMessage.getD "Anthropic API error"),
             errType := some (data.errType.getD "api_error") })
  else
    (true, { status := 200, response := some (data.content.getD "") })

/-- `POST` of `src/app/api/proxy/anthropic/route.ts`.  Only the presence
of `apiKey`, `model` and `userMessage` is checked before the fetch;
there is no key-format validation and no AbortController, so a slow
vendor call is simply awaited and completes like a normal response, and
a thrown error lands in the generic 500 catch. -/
def anthropicPOST (body : AnthropicBody) (veh : FetchBehavior) : Bool × ProxyResponse :=
  if body.apiKey = "" ∨ body.model = "" ∨ body.userMessage = "" then
    (false, { status := 400,
              error := some "Missing required fields: apiKey, model, userMessage" })
  else
    match veh with
    | FetchBehavior.respond st data => anthropicComplete st data
    | FetchBehavior.slow st data => anthropicComplete st data
    | FetchBehavior.netError m => (true, { status := 500, error := some m })

/-- Every branch of the extraction cascade returns a nonempty string. -/
theorem extractCore_ne_nil (cleaned xs : List Char)
    (h : extractCore cleaned = some xs) : xs ≠ [] := by
  unfold extractCore at h
  split at h
  · rename_i hs
    injection h with h
    subst h
    cases cleaned with
    | nil => simp [isSingleLetter] at hs
    | cons c t => simp
  · split at h
    · rename_i hs2
      injection h with h
      subst h
      cases cleaned with
      | nil => simp [isLetterThenNonAlpha] at hs2
      | cons c t => simp
    · split at h
      · injection h with h
        subst h
        simp
      · split at h
        · injection h with h
          subst h
          simp
        · exact absurd h (by simp)

/-- A successful extraction is a nonempty string, so the success
response text `extractedLetter || rawResponse` is nonempty whenever the
raw response is. -/
theorem responseText_ne_empty (raw : String) (hraw : raw ≠ "") :
    (extractAnswerLetter raw).getD raw ≠ "" := by
  unfold extractAnswerLetter
  cases hx : extractCore ((trimChars raw.toList).map Char.toUpper) with
  | none => simpa [hx] using hraw
  | some xs =>
    have hne := extractCore_ne_nil _ _ hx
    cases xs with
    | nil => exact absurd rfl hne
    | cons a t =>
      simp only [hx, Option.map_some', Option.getD_some]
      intro hEq
      have h2 := congrArg String.data hEq
      simp at h2

/-- Every 2xx answer of the OpenAI conversational handler carries a
nonempty `response` field. -/
theorem openai_2xx_nonempty (b : ConvBody) (veh : FetchBehavior)
    (flag : Bool) (resp : ProxyResponse)
    (hEq : handleConversationalModeOpenAI b veh = (flag, resp))
    (h2 : 200 ≤ resp.status) (h3 : resp.status < 300) :
    ∃ r, resp.response = some r ∧ r ≠ "" := by
  unfold handleConversationalModeOpenAI at hEq
  dsimp only at hEq
  repeat' split at hEq
  all_goals injection hEq with hf hr
  all_goals subst hr
  all_goals simp_all
  · omega
  · exact responseText_ne_empty _ (by assumption)

/-- Every 2xx answer of the Gemini conversational handler carries a
nonempty `response` field. -/
theorem gemini_2xx_nonempty (b : ConvBody) (veh : FetchBehavior)
    (flag : Bool) (resp : ProxyResponse)
    (hEq : handleConversationalModeGemini b veh = (flag, resp))
    (h2 : 200 ≤ resp.status) (h3 : resp.status < 300) :
    ∃ r, resp.response = some r ∧ r ≠ "" := by
  unfold handleConversationalModeGemini at hEq
  dsimp only at hEq
  repeat' split at hEq
  all_goals injection hEq with hf hr
  all_goals subst hr
  all_goals simp_all
  · omega
  · exact responseText_ne_empty _ (by assumption)

/-- C10: every 2xx answer of the OpenAI or Gemini conversational proxy
handler carries a nonempty `response` field, and a vendor success whose
text is empty or absent is answered with status 500 and error type
"empty_response". -/
theorem proxy_empty_response_behavior (b gb : ConvBody) (st gst : Nat) (d gd : VendorData)
    (hk : b.apiKey ≠ "") (hm : b.messages ≠ [])
    (hpre : strStartsWith b.apiKey "sk-" = true)
    (hlast : (windowMessages b.messages).getLast?.map Msg.role = some ChatRole.user)
    (gk : gb.apiKey ≠ "") (gm : gb.messages ≠ [])
    (gpre : strStartsWith gb.apiKey "AIza" = true)
    (glast : (windowMessages gb.messages).getLast?.map Msg.role = some ChatRole.user)
    (hst : 200 ≤ st) (hst2 : st < 300) (hemp : d.content = none ∨ d.content = some "")
    (gs1 : 200 ≤ gst) (gs2 : gst < 300) (gemp : gd.content = none ∨ gd.content = some "")
    (gsafe : gd.finishReason ≠ some "SAFETY") :
    (∀ (b' : ConvBody) (veh : FetchBehavior) (flag : Bool) (resp : ProxyResponse),
        handleConversationalModeOpenAI b' veh = (flag, resp) →
        200 ≤ resp.status → resp.status < 300 → ∃ r, resp.response = some r ∧ r ≠ "")
  ∧ (∀ (b' : ConvBody) (veh : FetchBehavior) (flag : Bool) (resp : ProxyResponse),
        handleConversationalModeGemini b' veh = (flag, resp) →
        200 ≤ resp.status → resp.status < 300 → ∃ r, resp.response = some r ∧ r ≠ "")
  ∧ handleConversationalModeOpenAI b (FetchBehavior.respond st d)
      = (true, { status := 500, error := some "No response generated by OpenAI",
                 errType := some "empty_response" })
  ∧ handleConversationalModeGemini gb (FetchBehavior.respond gst gd)
      = (true, { status := 500, error := some "No response generated by Gemini",
                 errType := some "empty_response" }) := by
  have hraw : d.content.getD "" = "" := by rcases hemp with h | h <;> simp [h]
  have graw : gd.content.getD "" = "" := by rcases gemp with h | h <;> simp [h]
  refine ⟨fun b' veh flag resp hEq => openai_2xx_nonempty b' veh flag resp hEq,
          fun b' veh flag resp hEq => gemini_2xx_nonempty b' veh flag resp hEq,
          ?_, ?_⟩
  · unfold handleConversationalModeOpenAI
    dsimp only
    rw [if_neg (by push_neg; exact ⟨hk, hm⟩)]
    rw [if_neg (by simp [hpre])]
    rw [if_neg (by simp [hlast])]
    rw [if_neg (by omega)]
    rw [if_pos hraw]
  · unfold handleConversationalModeGemini
    dsimp only
    rw [if_neg (by push_neg; exact ⟨gk, gm⟩)]
    rw [if_neg (by simp [gpre])]
    rw [if_neg (by simp [glast])]
    rw [if_neg (by omega)]
    rw [if_neg gsafe]
    rw [if_pos graw]

/-- C10 witness: with valid requests, a vendor 200 whose text is empty
is turned into a 500 "empty_response", and 2xx responses carry nonempty
text. -/
theorem proxy_empty_response_behavior_witness :
    (∀ (b' : ConvBody) (veh : FetchBehavior) (flag : Bool) (resp : ProxyResponse),
        handleConversationalModeOpenAI b' veh = (flag, resp) →
        200 ≤ resp.status → resp.status < 300 → ∃ r, resp.response = some r ∧ r ≠ "")
  ∧ (∀ (b' : ConvBody) (veh : FetchBehavior) (flag : Bool) (resp : ProxyResponse),
        handleConversationalModeGemini b' veh = (flag, resp) →
        200 ≤ resp.status → resp.status < 300 → ∃ r, resp.response = some r ∧ r ≠ "")
  ∧ handleConversationalModeOpenAI
        { apiKey := "sk-test", model := none, systemPrompt := some "s",
          messages := [{ role := ChatRole.user, content := "Q" }], maxTokens := some 10 }
        (FetchBehavior.respond 200 { content := some "", errMessage := none,
                                     errType := none, finishReason := none })
      = (true, { status := 500, error := some "No response generated by OpenAI",
                 errType := some "empty_response" })
  ∧ handleConversationalModeGemini
        { apiKey := "AIzaTest", model := none, systemPrompt := some "s",
          messages := [{ role := ChatRole.user, content := "Q" }], maxTokens := some 10 }
        (FetchBehavior.respond 200 { content := none, errMessage := none,
                                     errType := none, finishReason := none })
      = (true, { status := 500, error := some "No response generated by Gemini",
                 errType := some "empty_response" }) :=
  proxy_empty_response_behavior
    { apiKey := "sk-test", model := none, systemPrompt := some "s",
      messages := [{ role := ChatRole.user, content := "Q" }], maxTokens := some 10 }
    { apiKey := "AIzaTest", model := none, systemPrompt := some "s",
      messages := [{ role := ChatRole.user, content := "Q" }], maxTokens := some 10 }
    200 200
    { content := some "", errMessage := none, errType := none, finishReason := none }
    { content := none, errMessage := none, errType := none, finishReason := none }
    (by decide) (by decide) (by decide) (by decide)
    (by decide) (by decide) (by decide) (by decide)
    (by decide) (by decide) (Or.inr rfl)
    (by decide) (by decide) (Or.inl rfl) (by decide)

/-- C6 counterexample: the Anthropic proxy route applies no 30-second
timeout. A vendor call that takes longer than 30 seconds is simply
awaited and answered as a plain 200 success, not as a 504
request-timed-out condition. -/
theorem anthropic_no_timeout_counterexample :
    anthropicPOST
        { apiKey := "sk-ant-demo", model := "claude-sonnet-4-20250514",
          systemPrompt := "s", userMessage := "Q", maxTokens := 100 }
        (FetchBehavior.slow 200 { content := some "A", errMessage := none,
                                  errType := none, finishReason := none })
      = (true, { status := 200, response := some "A" })
  ∧ (anthropicPOST
        { apiKey := "sk-ant-demo", model := "claude-sonnet-4-20250514",
          systemPrompt := "s", userMessage := "Q", maxTokens := 100 }
        (FetchBehavior.slow 200 { content := some "A", errMessage := none,
                                  errType := none, finishReason := none })).2.status ≠ 504 := by
  decide

/-- C6 amended: the OpenAI and Gemini conversational handlers abort a
vendor call slower than 30 seconds and answer 504 with a distinct
"timed out after 30 seconds" message; the Anthropic route issues its
fetch with no timeout, so a slow vendor call completes exactly like a
normal response. -/
theorem adapter_timeout_behavior (b gb : ConvBody) (ab : AnthropicBody)
    (st gst ast : Nat) (d gd ad : VendorData)
    (hk : b.apiKey ≠ "") (hm : b.messages ≠ [])
    (hpre : strStartsWith b.apiKey "sk-" = true)
    (hlast : (windowMessages b.messages).getLast?.map Msg.role = some ChatRole.user)
    (gk : gb.apiKey ≠ "") (gm : gb.messages ≠ [])
    (gpre : strStartsWith gb.apiKey "AIza" = true)
    (glast : (windowMessages gb.messages).getLast?.map Msg.role = some ChatRole.user) :
    handleConversationalModeOpenAI b (FetchBehavior.slow st d)
      = (true, { status := 504,
                 error := some "OpenAI API request timed out after 30 seconds" })
  ∧ handleConversationalModeGemini gb (FetchBehavior.slow gst gd)
      = (true, { status := 504,
                 error := some "Gemini API request timed out after 30 seconds" })
  ∧ anthropicPOST ab (FetchBehavior.slow ast ad)
      = anthropicPOST ab (FetchBehavior.respond ast ad) := by
  refine ⟨?_, ?_, rfl⟩
  · unfold handleConversationalModeOpenAI
    dsimp only
    rw [if_neg (by push_neg; exact ⟨hk, hm⟩)]
    rw [if_neg (by simp [hpre])]
    rw [if_neg (by simp [hlast])]
  · unfold handleConversationalModeGemini
    dsimp only
    rw [if_neg (by push_neg; exact ⟨gk, gm⟩)]
    rw [if_neg (by simp [gpre])]
    rw [if_neg (by simp [glast])]

/-- C6 amended witness: concrete valid requests to the OpenAI and
Gemini handlers with a slow vendor yield the 504 timeout response. -/
theorem adapter_timeout_behavior_witness :
    handleConversationalModeOpenAI
        { apiKey := "sk-test", model := none, systemPrompt := some "s",
          messages := [{ role := ChatRole.user, content := "Q" }], maxTokens := some 10 }
        (FetchBehavior.slow 200 { content := some "A", errMessage := none,
                                  errType := none, finishReason := none })
      = (true, { status := 504,
                 error := some "OpenAI API request timed out after 30 seconds" })
  ∧ handleConversationalModeGemini
        { apiKey := "AIzaTest", model := none, systemPrompt := some "s",
          messages := [{ role := ChatRole.user, content := "Q" }], maxTokens := some 10 }
        (FetchBehavior.slow 200 { content := some "A", errMessage := none,
                                  errType := none, finishReason := none })
      = (true, { status := 504,
                 error := some "Gemini API request timed out after 30 seconds" })
  ∧ anthropicPOST
        { apiKey := "sk-ant-x", model := "m", systemPrompt := "s",
          userMessage := "Q", maxTokens := 100 }
        (FetchBehavior.slow 200 { content := some "A", errMessage := none,
                                  errType := none, finishReason := none })
      = anthropicPOST
          { apiKey := "sk-ant-x", model := "m", systemPrompt := "s",
            userMessage := "Q", maxTokens := 100 }
          (FetchBehavior.respond 200 { content := some "A", errMessage := none,
                                       errType := none, finishReason := none }) :=
  adapter_timeout_behavior
    { apiKey := "sk-test", model := none, systemPrompt := some "s",
      messages := [{ role := ChatRole.user, content := "Q" }], maxTokens := some 10 }
    { apiKey := "AIzaTest", model := none, systemPrompt := some "s",
      messages := [{ role := ChatRole.user, content := "Q" }], maxTokens := some 10 }
    { apiKey := "sk-ant-x", model := "m", systemPrompt := "s",
      userMessage := "Q", maxTokens := 100 }
    200 200 200
    { content := some "A", errMessage := none, errType := none, finishReason := none }
    { content := some "A", errMessage := none, errType := none, finishReason := none }
    { content := some "A", errMessage := none, errType := none, finishReason := none }
    (by decide) (by decide) (by decide) (by decide)
    (by decide) (by decide) (by decide) (by decide)

/-- C7 counterexample: the Anthropic proxy route performs no key-format
validation. A key with the wrong prefix (not "sk-ant-") still passes
the presence check, the vendor fetch is issued (first component true),
and the answer is a plain success rather than a 400 invalid-key
error. -/
theorem anthropic_no_key_validation_counterexample :
    anthropicPOST
        { apiKey := "totally-bogus-key", model := "claude-sonnet-4-20250514",
          systemPrompt := "s", userMessage := "Q", maxTokens := 100 }
        (FetchBehavior.respond 200 { content := some "A", errMessage := none,
                                     errType := none, finishReason := none })
      = (true, { status := 200, response := some "A" })
  ∧ strStartsWith "totally-bogus-key" "sk-ant-" = false := by
  decide

/-- C7 amended: the OpenAI and Gemini conversational handlers validate
only the fixed literal prefix of the key ("sk-", "AIza") - no minimum
length - before issuing any network call, failing fast with a 400
invalid-key-format error; the Anthropic route checks only field
presence and issues the fetch for any non-empty key. -/
theorem adapter_key_validation (b gb : ConvBody) (ab : AnthropicBody)
    (veh gveh aveh sveh : FetchBehavior)
    (hk : b.apiKey ≠ "") (hm : b.messages ≠ [])
    (hpre : strStartsWith b.apiKey "sk-" = false)
    (gk : gb.apiKey ≠ "") (gm : gb.messages ≠ [])
    (gpre : strStartsWith gb.apiKey "AIza" = false)
    (ak : ab.apiKey ≠ "") (am : ab.model ≠ "") (au : ab.userMessage ≠ "") :
    handleConversationalModeOpenAI b veh
      = (false, { status := 400,
                  error := some "Invalid OpenAI API key format. Key should start with 'sk-'" })
  ∧ handleConversationalModeGemini gb gveh
      = (false, { status := 400,
                  error := some "Invalid Gemini API key format. Key should start with 'AIza'" })
  ∧ (handleConversationalModeOpenAI
        { apiKey := "sk-", model := none, systemPrompt := none,
          messages := [{ role := ChatRole.user, content := "Q" }], maxTokens := none }
        sveh).1 = true
  ∧ (anthropicPOST ab aveh).1 = true := by
  refine ⟨?_, ?_, ?_, ?_⟩
  · unfold handleConversationalModeOpenAI
    rw [if_neg (by push_neg; exact ⟨hk, hm⟩)]
    rw [if_pos (by simp [hpre])]
  · unfold handleConversationalModeGemini
    rw [if_neg (by push_neg; exact ⟨gk, gm⟩)]
    rw [if_pos (by simp [gpre])]
  · unfold handleConversationalModeOpenAI
    rw [if_neg (by decide)]
    rw [if_neg (by decide)]
    dsimp only
    rw [if_neg (by decide)]
    cases sveh <;> dsimp only <;> first
      | rfl
      | (repeat' split) <;> rfl
  · unfold anthropicPOST anthropicComplete
    rw [if_neg (by push_neg; exact ⟨ak, am, au⟩)]
    cases aveh <;> dsimp only <;> first
      | rfl
      | (repeat' split) <;> rfl

/-- C7 amended witness: a wrong-prefix key is rejected with a 400 by the
OpenAI and Gemini handlers without a fetch, the three-character key
"sk-" passes the OpenAI format check, and the Anthropic route issues
the fetch for a malformed but non-empty key. -/
theorem adapter_key_validation_witness :
    handleConversationalModeOpenAI
        { apiKey := "bad-key", model := none, systemPrompt := none,
          messages := [{ role := ChatRole.user, content := "Q" }], maxTokens := none }
        (FetchBehavior.respond 200 { content := some "A", errMessage := none,
                                     errType := none, finishReason := none })
      = (false, { status := 400,
                  error := some "Invalid OpenAI API key format. Key should start with 'sk-'" })
  ∧ handleConversationalModeGemini
        { apiKey := "bad-key", model := none, systemPrompt := none,
          messages := [{ role := ChatRole.user, content := "Q" }], maxTokens := none }
        (FetchBehavior.respond 200 { content := some "A", errMessage := none,
                                     errType := none, finishReason := none })
      = (false, { status := 400,
                  error := some "Invalid Gemini API key format. Key should start with 'AIza'" })
  ∧ (handleConversationalModeOpenAI
        { apiKey := "sk-", model := none, systemPrompt := none,
          messages := [{ role := ChatRole.user, content := "Q" }], maxTokens := none }
        (FetchBehavior.respond 200 { content := some "A", errMessage := none,
                                     errType := none, finishReason := none })).1 = true
  ∧ (anthropicPOST
        { apiKey := "not-an-anthropic-key", model := "m", systemPrompt := "s",
          userMessage := "Q", maxTokens := 100 }
        (FetchBehavior.respond 200 { content := some "A", errMessage := none,
                                     errType := none, finishReason := none })).1 = true :=
  adapter_key_validation
    { apiKey := "bad-key", model := none, systemPrompt := none,
      messages := [{ role := ChatRole.user, content := "Q" }], maxTokens := none }
    { apiKey := "bad-key", model := none, systemPrompt := none,
      messages := [{ role := ChatRole.user, content := "Q" }], maxTokens := none }
    { apiKey := "not-an-anthropic-key", model := "m", systemPrompt := "s",
      userMessage := "Q", maxTokens := 100 }
    (FetchBehavior.respond 200 { content := some "A", errMessage := none,
                                 errType := none, finishReason := none })
    (FetchBehavior.respond 200 { content := some "A", errMessage := none,
                                 errType := none, finishReason := none })
    (FetchBehavior.respond 200 { content := some "A", errMessage := none,
                                 errType := none, finishReason := none })
    (FetchBehavior.respond 200 { content := some "A", errMessage := none,
                                 errType := none, finishReason := none })
    (by decide) (by decide) (by decide)
    (by decide) (by decide) (by decide)
    (by decide) (by decide) (by decide)

/-- A partial result recorded after each answered question
(`partialResults` entries of `src/app/assess/page.tsx`). -/
structure SavedResult where
  questionIndex : Nat
  question : String
  answer : String
  timestamp : Nat
deriving DecidableEq, Repr

/-- The orchestrator's mutable run state: the recorded partial results
and how many provider calls were issued. -/
structure OrchState where
  partials : List SavedResult
  callsMade : Nat
deriving DecidableEq, Repr

/-- `trackedCallAI` of `src/app/assess/page.tsx`: checks the
cancellation flag at the top, before any adapter invocation; when set it
throws "cancelled", otherwise it invokes the wrapped adapter and records
a partial result.  `signal i` is the state of `controller.signal.aborted`
at the check before the (i+1)-th question; `answerOf` abstracts the
successful wrapped adapter call and `clock` the `Date.now()` values. -/
def trackedCallAI (signal : Nat → Bool) (answerOf : Nat → String) (clock : Nat → Nat)
    (st : OrchState) (question : String) : Except String (String × OrchState) :=
  if signal st.partials.length then Except.error "cancelled"
  else
    let idx := st.partials.length
    let answer := answerOf idx
    Except.ok (answer,
      { partials := st.partials ++
          [{ questionIndex := idx, question := question, answer := answer,
             timestamp := clock idx }],
        callsMade := st.callsMade + 1 })

/-- Modelled from the spec: the assessment loop that drives
`trackedCallAI` lives in the external `@aiassesstech/sdk` package, not
in this repository.  Per the spec's Assessment Orchestrator, it iterates
the fixed question list sequentially, one in-flight call at a time,
invoking the callback per question; a thrown error aborts the loop and
propagates.  Returns the error, if any, and the final state. -/
def runQuestions (signal : Nat → Bool) (answerOf : Nat → String) (clock : Nat → Nat) :
    List String → OrchState → Option String × OrchState
  | [], st => (none, st)
  | q :: qs, st =>
    match trackedCallAI signal answerOf clock st q with
    | Except.error e => (some e, st)
    | Except.ok (_, st1) => runQuestions signal answerOf clock qs st1

/-- The terminal status of a run. -/
inductive RunStatus where
  | completed
  | cancelled
  | error
deriving DecidableEq, Repr

/-- The catch of `runAssessment` in `src/app/assess/page.tsx`: the
message "cancelled" sets status `cancelled`, any other error sets
`error`, no error means completion. -/
def statusOf : Option String → RunStatus
  | none => RunStatus.completed
  | some e => if e = "cancelled" then RunStatus.cancelled else RunStatus.error

/-- The loop invariant behind cancellation: with the flag raised from
the k-th check on, the run cancels with exactly k results and k calls
beyond the starting state. -/
theorem runQuestions_cancel (answerOf : Nat → String) (clock : Nat → Nat) (k : Nat) :
    ∀ (qs : List String) (st : OrchState),
      st.partials.length ≤ k → k < st.partials.length + qs.length →
      (runQuestions (fun i => decide (k ≤ i)) answerOf clock qs st).1 = some "cancelled"
    ∧ (runQuestions (fun i => decide (k ≤ i)) answerOf clock qs st).2.partials.length = k
    ∧ (runQuestions (fun i => decide (k ≤ i)) answerOf clock qs st).2.callsMade
        = st.callsMade + (k - st.partials.length) := by
  intro qs
  induction qs with
  | nil =>
    intro st h1 h2
    simp at h2
    omega
  | cons q qs ih =>
    intro st h1 h2
    by_cases hk : k ≤ st.partials.length
    · have hke : st.partials.length = k := by omega
      unfold runQuestions trackedCallAI
      rw [if_pos (by simpa using hk)]
      simp [hke]
    · unfold runQuestions trackedCallAI
      rw [if_neg (by simpa using hk)]
      dsimp only
      have := ih
        { partials := st.partials ++
            [{ questionIndex := st.partials.length, question := q,
               answer := answerOf st.partials.length,
               timestamp := clock st.partials.length }],
          callsMade := st.callsMade + 1 }
        (by simp; omega) (by simp at h2 ⊢; omega)
      refine ⟨this.1, this.2.1, ?_⟩
      rw [this.2.2]
      simp
      omega

/-- C5: if cancellation is signalled after question k completes and
before question k+1 is issued (the abort flag reads false at the first k
checks and true from the (k+1)-th check on), the run ends `cancelled`
with exactly k partial results recorded and exactly k provider calls
issued - the (k+1)-th call never happens. -/
theorem cancellation_behavior (k : Nat) (qs : List String)
    (answerOf : Nat → String) (clock : Nat → Nat) (hk : k < qs.length) :
    statusOf (runQuestions (fun i => decide (k ≤ i)) answerOf clock qs
        { partials := [], callsMade := 0 }).1 = RunStatus.cancelled
  ∧ (runQuestions (fun i => decide (k ≤ i)) answerOf clock qs
        { partials := [], callsMade := 0 }).2.partials.length = k
  ∧ (runQuestions (fun i => decide (k ≤ i)) answerOf clock qs
        { partials := [], callsMade := 0 }).2.callsMade = k := by
  have h := runQuestions_cancel answerOf clock k qs
    { partials := [], callsMade := 0 } (by simp) (by simpa using hk)
  refine ⟨?_, h.2.1, by simpa using h.2.2⟩
  rw [h.1]
  rfl

/-- C5 witness: cancelling a 3-question run after question 2 ends
`cancelled` with 2 recorded results and no third call. -/
theorem cancellation_behavior_witness :
    statusOf (runQuestions (fun i => decide (2 ≤ i)) (fun _ => "A") (fun _ => 0)
        ["q1", "q2", "q3"] { partials := [], callsMade := 0 }).1 = RunStatus.cancelled
  ∧ (runQuestions (fun i => decide (2 ≤ i)) (fun _ => "A") (fun _ => 0)
        ["q1", "q2", "q3"] { partials := [], callsMade := 0 }).2.partials.length = 2
  ∧ (runQuestions (fun i => decide (2 ≤ i)) (fun _ => "A") (fun _ => 0)
        ["q1", "q2", "q3"] { partials := [], callsMade := 0 }).2.callsMade = 2 :=
  cancellation_behavior 2 ["q1", "q2", "q3"] (fun _ => "A") (fun _ => 0) (by decide)

/-- The lead-registration request body, in the fields the proxy reads:
the honeypot field `website` (`none` models an absent or non-string
value) and the lead's email. -/
structure RegisterBody where
  website : Option String
  email : String
deriving DecidableEq, Repr

/-- What the registration proxy does with a request: answer a fake
success without forwarding, or forward the body to the external
lead-registration API. -/
inductive RegisterOutcome where
  | fakeSuccess (leadId : String) (email : String)
  | forward
deriving DecidableEq, Repr

/-- The honeypot test of `src/app/api/register/route.ts`:
`body.website && typeof body.website === "string" && body.website.trim() !== ""`.
An absent field and the empty string are falsy; a whitespace-only string
trims to empty. -/
def honeypotFilled (body : RegisterBody) : Bool :=
  match body.website with
  | some w => w != "" && jsTrim w != ""
  | none => false

/-- `POST` of `src/app/api/register/route.ts`: a filled honeypot is
answered with the fake success `{ success: true, leadId: "blocked" }`
and the request is not forwarded; otherwise the body is forwarded to
the external API. -/
def registerPOST (body : RegisterBody) : RegisterOutcome :=
  if honeypotFilled body then RegisterOutcome.fakeSuccess "blocked" body.email
  else RegisterOutcome.forward

/-- C8 counterexample: a whitespace-only honeypot value is a non-empty
string, yet the request is forwarded, because the route tests the
trimmed value. -/
theorem register_honeypot_counterexample :
    registerPOST { website := some " ", email := "bot@example.com" }
      = RegisterOutcome.forward
  ∧ (" " : String) ≠ "" := by
  constructor
  · rfl
  · decide

/-- C8 amended: a honeypot value that is non-empty after trimming
whitespace is answered with the fake success (leadId "blocked") and
never forwarded; an absent honeypot, the empty string, or a
whitespace-only value is forwarded. -/
theorem register_honeypot_behavior (body : RegisterBody) (w : String) :
    (body.website = some w → jsTrim w ≠ "" →
      registerPOST body = RegisterOutcome.fakeSuccess "blocked" body.email)
  ∧ (body.website = none ∨ body.website = some "" ∨
      (∃ w0, body.website = some w0 ∧ jsTrim w0 = "") →
      registerPOST body = RegisterOutcome.forward) := by
  constructor
  · intro hw ht
    have hw0 : w ≠ "" := by
      intro h
      subst h
      exact ht rfl
    unfold registerPOST honeypotFilled
    rw [hw]
    rw [if_pos (by simp [hw0, ht])]
  · intro h
    unfold registerPOST honeypotFilled
    rcases h with h | h | ⟨w0, h, ht⟩
    · rw [h]
      rfl
    · rw [h]
      rw [if_neg (by simp)]
    · rw [h]
      rw [if_neg (by simp [ht])]

/-- C8 amended witness: a real honeypot value is blocked with the fake
success; an absent one is forwarded. -/
theorem register_honeypot_behavior_witness :
    ((({ website := some "http://spam.example", email := "bot@example.com" } : RegisterBody).website
        = some "http://spam.example") → jsTrim "http://spam.example" ≠ "" →
      registerPOST { website := some "http://spam.example", email := "bot@example.com" }
        = RegisterOutcome.fakeSuccess "blocked"
            ({ website := some "http://spam.example", email := "bot@example.com" } : RegisterBody).email)
  ∧ ((({ website := some "http://spam.example", email := "bot@example.com" } : RegisterBody).website = none
      ∨ ({ website := some "http://spam.example", email := "bot@example.com" } : RegisterBody).website = some ""
      ∨ (∃ w0, ({ website := some "http://spam.example", email := "bot@example.com" } : RegisterBody).website
            = some w0 ∧ jsTrim w0 = "")) →
      registerPOST { website := some "http://spam.example", email := "bot@example.com" }
        = RegisterOutcome.forward) :=
  register_honeypot_behavior
    { website := some "http://spam.example", email := "bot@example.com" }
    "http://spam.example"

/-- One answer option of a question in
`src/app/api/sdk/config/route.ts`. -/
structure SAnswer where
  optionLetter : String
  answerText : String
  score : Int
deriving DecidableEq, Repr

/-- The destructuring swap
`[shuffled[i], shuffled[j]] = [shuffled[j], shuffled[i]]` on a list;
out-of-range indices leave the list unchanged (they do not occur in the
source loop). -/
def swapIdx (l : List SAnswer) (i j : Nat) : List SAnswer :=
  match l.get? i, l.get? j with
  | some x, some y => (l.set i y).set j x
  | _, _ => l

/-- The Fisher-Yates loop `for (let i = length - 1; i > 0; i--)`, with
`js i` the value `Math.floor(Math.random() * (i + 1))` drawn at index
`i`. -/
def fisherYatesAux (js : Nat → Nat) : Nat → List SAnswer → List SAnswer
  | 0, l => l
  | i + 1, l => fisherYatesAux js i (swapIdx l (i + 1) (js (i + 1)))

/-- `newLetters` of `shuffleAnswers`. -/
def NEW_LETTERS : List String := ["A", "B", "C", "D"]

/-- `shuffleAnswers` of `src/app/api/sdk/config/route.ts`: shuffle a
copy, find the new index of the first answer with positive score, map it
to a letter; a missing index (JavaScript `findIndex` returning -1, or an
index past `newLetters`) falls back to "D". -/
def shuffleAnswers (js : Nat → Nat) (answers : List SAnswer) :
    List String × String :=
  let shuffled := fisherYatesAux js (answers.length - 1) answers
  let correctIndex := shuffled.findIdx fun a => decide (0 < a.score)
  let correctLetter := (NEW_LETTERS.get? correctIndex).getD "D"
  (shuffled.map fun a => a.answerText, correctLetter)

/-- Setting an index to the value it already holds is the identity. -/
theorem set_get_self (l : List SAnswer) (i : Nat) (h : i < l.length) :
    l.set i (l.get ⟨i, h⟩) = l := by
  induction l generalizing i with
  | nil => simp at h
  | cons a t ih =>
    cases i with
    | zero => rfl
    | succ i =>
      exact congrArg (List.cons a) (ih i (by simpa using h))

/-- Moving the k-th element to the front while writing `a` into slot k
is a permutation of putting `a` in front. -/
theorem get_cons_set_perm (t : List SAnswer) (k : Nat) (hk : k < t.length) (a : SAnswer) :
    (t.get ⟨k, hk⟩ :: t.set k a).Perm (a :: t) := by
  induction t generalizing k with
  | nil => simp at hk
  | cons b s ih =>
    cases k with
    | zero => exact List.Perm.swap a b s
    | succ k =>
      have h1 : (s.get ⟨k, by simpa using hk⟩ :: b :: s.set k a).Perm
          (b :: s.get ⟨k, by simpa using hk⟩ :: s.set k a) :=
        List.Perm.swap b (s.get ⟨k, by simpa using hk⟩) (s.set k a)
      have h2 : (b :: s.get ⟨k, by simpa using hk⟩ :: s.set k a).Perm (b :: a :: s) :=
        (ih k (by simpa using hk)).cons b
      have h3 : (b :: a :: s).Perm (a :: b :: s) := List.Perm.swap a b s
      exact (h1.trans h2).trans h3

/-- The double `set` of a swap with `j < i` permutes the list. -/
theorem set_set_swap_perm (l : List SAnswer) (i j : Nat)
    (hi : i < l.length) (hj : j < l.length) (hlt : j < i) :
    ((l.set i (l.get ⟨j, hj⟩)).set j (l.get ⟨i, hi⟩)).Perm l := by
  induction l generalizing i j with
  | nil => simp at hi
  | cons a t ih =>
    match i, j with
    | i + 1, 0 =>
      simpa using get_cons_set_perm t i (by simpa using hi) a
    | i + 1, j + 1 =>
      simpa using (ih i j (by simpa using hi) (by simpa using hj) (by omega)).cons a

/-- A source-loop swap (`j ≤ i < length`) permutes the list. -/
theorem swapIdx_perm (l : List SAnswer) (i j : Nat) (hi : i < l.length) (hj : j ≤ i) :
    (swapIdx l i j).Perm l := by
  have hj' : j < l.length := by omega
  unfold swapIdx
  rw [List.get?_eq_get hi, List.get?_eq_get hj']
  dsimp only
  rcases Nat.lt_or_ge j i with hlt | hge
  · exact set_set_swap_perm l i j hi hj' hlt
  · have hij : j = i := by omega
    subst hij
    rw [List.set_set]
    rw [set_get_self l j hj']

/-- The whole Fisher-Yates pass is a permutation, for any draw of
in-range random indices. -/
theorem fisherYatesAux_perm (js : Nat → Nat) (hjs : ∀ i, js i ≤ i) :
    ∀ (n : Nat) (l : List SAnswer), n < l.length → (fisherYatesAux js n l).Perm l := by
  intro n
  induction n with
  | zero => intro l _; exact List.Perm.refl l
  | succ n ih =>
    intro l hl
    have hsw : (swapIdx l (n + 1) (js (n + 1))).Perm l :=
      swapIdx_perm l (n + 1) (js (n + 1)) hl (hjs (n + 1))
    have hlen : (swapIdx l (n + 1) (js (n + 1))).length = l.length := hsw.length_eq
    exact (ih (swapIdx l (n + 1) (js (n + 1))) (by omega)).trans hsw

/-- When the filter keeps exactly one element, `findIdx` lands on the
index of any element satisfying the predicate. -/
theorem findIdx_unique (p : SAnswer → Bool) :
    ∀ (l : List SAnswer) (i : Nat) (hi : i < l.length),
      p (l.get ⟨i, hi⟩) = true → (l.filter p).length = 1 → l.findIdx p = i := by
  intro l
  induction l with
  | nil => intro i hi; simp at hi
  | cons a t ih =>
    intro i hi hp huniq
    by_cases ha : p a = true
    · have htf : t.filter p = [] := by
        rw [List.filter_cons_of_pos ha] at huniq
        simpa using huniq
      cases i with
      | zero => simp [List.findIdx_cons, ha]
      | succ i =>
        exfalso
        have hmem : t.get ⟨i, by simpa using hi⟩ ∈ t.filter p :=
          List.mem_filter.mpr ⟨List.get_mem t i (by simpa using hi), by simpa using hp⟩
        rw [htf] at hmem
        simp at hmem
    · cases i with
      | zero => exact absurd hp ha
      | succ i =>
        have hft : (t.filter p).length = 1 := by
          rwa [List.filter_cons_of_neg (by simpa using ha)] at huniq
        have hrec := ih i (by simpa using hi) (by simpa using hp) hft
        simp [List.findIdx_cons, ha, hrec]

/-- C9 counterexample: a draw that lands the single positively scored
answer in the last slot makes `shuffleAnswers` return "D" although an
answer has score > 0, so "D" is not returned only in the no-positive
case. -/
theorem shuffle_returns_d_counterexample :
    (shuffleAnswers (fun i => if i = 3 then 0 else i)
        [{ optionLetter := "A", answerText := "right", score := 1 },
         { optionLetter := "B", answerText := "wrong b", score := 0 },
         { optionLetter := "C", answerText := "wrong c", score := 0 },
         { optionLetter := "D", answerText := "wrong d", score := 0 }]).2 = "D"
  ∧ ∃ a ∈ [({ optionLetter := "A", answerText := "right", score := 1 } : SAnswer),
           { optionLetter := "B", answerText := "wrong b", score := 0 },
           { optionLetter := "C", answerText := "wrong c", score := 0 },
           { optionLetter := "D", answerText := "wrong d", score := 0 }], 0 < a.score := by
  decide

/-- C9 amended: for every 4-element answer list and every in-range draw,
the shuffled texts are a permutation of the input texts; when exactly
one answer has score > 0, `correctLetter` is the letter of that answer's
position in the shuffled order (so "D" when it lands last); and when no
answer has score > 0 the fallback "D" is returned. -/
theorem shuffleAnswers_spec (js : Nat → Nat) (answers : List SAnswer)
    (hlen : answers.length = 4) (hjs : ∀ i, js i ≤ i) :
    (shuffleAnswers js answers).1.Perm (answers.map fun a => a.answerText)
  ∧ (∀ (i : Nat) (hi : i < (fisherYatesAux js (answers.length - 1) answers).length),
      (answers.filter fun a => decide (0 < a.score)).length = 1 →
      0 < ((fisherYatesAux js (answers.length - 1) answers).get ⟨i, hi⟩).score →
      (shuffleAnswers js answers).2 = (NEW_LETTERS.get? i).getD "D")
  ∧ ((∀ a ∈ answers, ¬ 0 < a.score) → (shuffleAnswers js answers).2 = "D") := by
  have hperm : (fisherYatesAux js (answers.length - 1) answers).Perm answers :=
    fisherYatesAux_perm js hjs (answers.length - 1) answers (by omega)
  refine ⟨?_, ?_, ?_⟩
  · unfold shuffleAnswers
    exact hperm.map _
  · intro i hi huniq hpos
    have hfilt : ((fisherYatesAux js (answers.length - 1) answers).filter
        fun a => decide (0 < a.score)).length = 1 := by
      rw [(hperm.filter _).length_eq]
      exact huniq
    have hidx : (fisherYatesAux js (answers.length - 1) answers).findIdx
        (fun a => decide (0 < a.score)) = i :=
      findIdx_unique _ _ i hi (by simpa using hpos) hfilt
    unfold shuffleAnswers
    dsimp only
    rw [hidx]
  · intro hnone
    have hfalse : ∀ a ∈ fisherYatesAux js (answers.length - 1) answers,
        (fun a => decide (0 < a.score)) a = false := by
      intro a ha
      simpa using hnone a (hperm.mem_iff.mp ha)
    have hidx : (fisherYatesAux js (answers.length - 1) answers).findIdx
        (fun a => decide (0 < a.score))
        = (fisherYatesAux js (answers.length - 1) answers).length :=
      List.findIdx_eq_length.mpr hfalse
    unfold shuffleAnswers
    dsimp only
    rw [hidx, hperm.length_eq, hlen]
    rfl

/-- C9 amended witness: the spec theorem applied to a concrete
4-answer list and the constant-zero draw. -/
theorem shuffleAnswers_spec_witness :
    (shuffleAnswers (fun _ => 0)
        [{ optionLetter := "A", answerText := "right", score := 1 },
         { optionLetter := "B", answerText := "wrong b", score := 0 },
         { optionLetter := "C", answerText := "wrong c", score := 0 },
         { optionLetter := "D", answerText := "wrong d", score := 0 }]).1.Perm
      ([({ optionLetter := "A", answerText := "right", score := 1 } : SAnswer),
        { optionLetter := "B", answerText := "wrong b", score := 0 },
        { optionLetter := "C", answerText := "wrong c", score := 0 },
        { optionLetter := "D", answerText := "wrong d", score := 0 }].map fun a => a.answerText)
  ∧ (∀ (i : Nat) (hi : i < (fisherYatesAux (fun _ => 0)
        (([({ optionLetter := "A", answerText := "right", score := 1 } : SAnswer),
           { optionLetter := "B", answerText := "wrong b", score := 0 },
           { optionLetter := "C", answerText := "wrong c", score := 0 },
           { optionLetter := "D", answerText := "wrong d", score := 0 }]).length - 1)
        [{ optionLetter := "A", answerText := "right", score := 1 },
         { optionLetter := "B", answerText := "wrong b", score := 0 },
         { optionLetter := "C", answerText := "wrong c", score := 0 },
         { optionLetter := "D", answerText := "wrong d", score := 0 }]).length),
      (([({ optionLetter := "A", answerText := "right", score := 1 } : SAnswer),
         { optionLetter := "B", answerText := "wrong b", score := 0 },
         { optionLetter := "C", answerText := "wrong c", score := 0 },
         { optionLetter := "D", answerText := "wrong d", score := 0 }]).filter
           fun a => decide (0 < a.score)).length = 1 →
      0 < ((fisherYatesAux (fun _ => 0)
        (([({ optionLetter := "A", answerText := "right", score := 1 } : SAnswer),
           { optionLetter := "B", answerText := "wrong b", score := 0 },
           { optionLetter := "C", answerText := "wrong c", score := 0 },
           { optionLetter := "D", answerText := "wrong d", score := 0 }]).length - 1)
        [{ optionLetter := "A", answerText := "right", score := 1 },
         { optionLetter := "B", answerText := "wrong b", score := 0 },
         { optionLetter := "C", answerText := "wrong c", score := 0 },
         { optionLetter := "D", answerText := "wrong d", score := 0 }]).get ⟨i, hi⟩).score →
      (shuffleAnswers (fun _ => 0)
        [{ optionLetter := "A", answerText := "right", score := 1 },
         { optionLetter := "B", answerText := "wrong b", score := 0 },
         { optionLetter := "C", answerText := "wrong c", score := 0 },
         { optionLetter := "D", answerText := "wrong d", score := 0 }]).2
        = (NEW_LETTERS.get? i).getD "D")
  ∧ ((∀ a ∈ [({ optionLetter := "A", answerText := "right", score := 1 } : SAnswer),
             { optionLetter := "B", answerText := "wrong b", score := 0 },
             { optionLetter := "C", answerText := "wrong c", score := 0 },
             { optionLetter := "D", answerText := "wrong d", score := 0 }], ¬ 0 < a.score) →
      (shuffleAnswers (fun _ => 0)
        [{ optionLetter := "A", answerText := "right", score := 1 },
         { optionLetter := "B", answerText := "wrong b", score := 0 },
         { optionLetter := "C", answerText := "wrong c", score := 0 },
         { optionLetter := "D", answerText := "wrong d", score := 0 }]).2 = "D") :=
  shuffleAnswers_spec (fun _ => 0)
    [{ optionLetter := "A", answerText := "right", score := 1 },
     { optionLetter := "B", answerText := "wrong b", score := 0 },
     { optionLetter := "C", answerText := "wrong c", score := 0 },
     { optionLetter := "D", answerText := "wrong d", score := 0 }]
    rfl (fun i => Nat.zero_le i)
